import Mathlib

/-!
A verification development for the parasite registry data pipeline
(`parasite_reg/contracts/data-pipeline.py`).  Python values, dictionaries and
the library calls the pipeline makes (`json.dumps`, `hashlib`, the `retry`
decorator, `pandas.groupby`) are shallowly embedded as Lean data and
functions; each definition carries a comment pointing at the source construct
it embeds.
-/

/-- JSON-like Python values, as stored in `ParasiteRecord.metadata`
(`Dict[str, Any]`).  An object keeps its insertion-ordered entry list, as a
Python `dict` does.  `unser` stands for a Python value that `json.dumps`
cannot serialize (a set, bytes, an arbitrary object, ...), on which
`json.dumps` raises `TypeError`. -/
inductive J where
  | str (s : String)
  | num (n : Int)
  | bool (b : Bool)
  | null
  | unser
  | arr (xs : List J)
  | obj (fields : List (String × J))

/-- Whether the value is a Python `dict` (`isinstance(record.metadata, dict)`,
line 168 of the source). -/
def J.isObj : J → Bool
  | .obj _ => true
  | _ => false

mutual
/-- Well-formedness of an embedded Python value: every object's keys are
distinct, which necessarily holds for a value built from Python `dict`s. -/
def jwf : J → Bool
  | .str _ => true
  | .num _ => true
  | .bool _ => true
  | .null => true
  | .unser => true
  | .arr xs => jwfList xs
  | .obj fs => decide ((fs.map Prod.fst).Nodup) && jwfEntries fs

/-- Well-formedness of every element of an array. -/
def jwfList : List J → Bool
  | [] => true
  | x :: xs => jwf x && jwfList xs

/-- Well-formedness of every value of an object entry list. -/
def jwfEntries : List (String × J) → Bool
  | [] => true
  | f :: fs => jwf f.2 && jwfEntries fs
end

/-- The key ordering used by `json.dumps(..., sort_keys=True)` (line 76):
object entries are emitted sorted by key. -/
def sortByKey (l : List (String × J)) : List (String × J) :=
  l.mergeSort (fun p q => decide (p.1 ≤ q.1))

mutual
/-- The object-entry ordering `json.dumps(metadata, sort_keys=True)` (line 76)
imposes before emitting bytes: every object's entry list, at every depth, is
rewritten into sorted-by-key order. -/
def canonicalize : J → J
  | .str s => .str s
  | .num n => .num n
  | .bool b => .bool b
  | .null => .null
  | .unser => .unser
  | .arr xs => .arr (canonList xs)
  | .obj fs => .obj (sortByKey (canonEntries fs))

/-- `canonicalize` mapped over an array's elements. -/
def canonList : List J → List J
  | [] => []
  | x :: xs => canonicalize x :: canonList xs

/-- `canonicalize` mapped over an object's entry values. -/
def canonEntries : List (String × J) → List (String × J)
  | [] => []
  | f :: fs => (f.1, canonicalize f.2) :: canonEntries fs
end

/-- A JSON string literal.  The pipeline's strings contain no characters that
`json.dumps` escapes, so plain quoting is faithful on every value it meets. -/
def jstr (s : String) : String := "\"" ++ s ++ "\""

mutual
/-- Emission of JSON text for an (already key-sorted) value, with `json.dumps`'s
default separators `", "` and `": "`.  A non-serializable value makes
`json.dumps` raise `TypeError`, modelled by the `Except` error channel. -/
def serialize : J → Except String String
  | .str s => .ok (jstr s)
  | .num n => .ok (toString n)
  | .bool b => .ok (if b then "true" else "false")
  | .null => .ok "null"
  | .unser => .error "TypeError: Object is not JSON serializable"
  | .arr xs =>
    match serializeList xs with
    | .error e => .error e
    | .ok parts => .ok ("[" ++ String.intercalate ", " parts ++ "]")
  | .obj fs =>
    match serializeEntries fs with
    | .error e => .error e
    | .ok parts => .ok ("\x7b" ++ String.intercalate ", " parts ++ "\x7d")

/-- Serialization of an array's elements. -/
def serializeList : List J → Except String (List String)
  | [] => .ok []
  | x :: xs =>
    match serialize x with
    | .error e => .error e
    | .ok s =>
      match serializeList xs with
      | .error e => .error e
      | .ok parts => .ok (s :: parts)

/-- Serialization of an object's entries as `"key": value` items. -/
def serializeEntries : List (String × J) → Except String (List String)
  | [] => .ok []
  | f :: fs =>
    match serialize f.2 with
    | .error e => .error e
    | .ok s =>
      match serializeEntries fs with
      | .error e => .error e
      | .ok parts => .ok ((jstr f.1 ++ ": " ++ s) :: parts)
end

/-- `json.dumps(v, sort_keys=True)` (line 76): canonical bytes of a value, or
the `TypeError` `json.dumps` raises on a non-serializable value. -/
def dumps (v : J) : Except String String := serialize (canonicalize v)

/-- Semantic equality of two embedded Python values: equal atoms, pointwise
equal arrays, and objects carrying the same keys with semantically equal
values in any insertion order (`objPerm` reorders entries, `objCons` compares
entries pointwise), at every nesting depth. -/
inductive SemEq : J → J → Prop where
  | str (s : String) : SemEq (.str s) (.str s)
  | num (n : Int) : SemEq (.num n) (.num n)
  | bool (b : Bool) : SemEq (.bool b) (.bool b)
  | null : SemEq .null .null
  | unser : SemEq .unser .unser
  | arrNil : SemEq (.arr []) (.arr [])
  | arrCons {x y : J} {xs ys : List J} :
      SemEq x y → SemEq (.arr xs) (.arr ys) → SemEq (.arr (x :: xs)) (.arr (y :: ys))
  | objNil : SemEq (.obj []) (.obj [])
  | objCons {k : String} {v w : J} {fs gs : List (String × J)} :
      SemEq v w → SemEq (.obj fs) (.obj gs) →
      SemEq (.obj ((k, v) :: fs)) (.obj ((k, w) :: gs))
  | objPerm {fs gs hs : List (String × J)} :
      List.Perm fs gs → SemEq (.obj gs) (.obj hs) → SemEq (.obj fs) (.obj hs)

mutual
/-- Semantic equality is reflexive. -/
def semEqRefl : (v : J) → SemEq v v
  | .str s => .str s
  | .num n => .num n
  | .bool b => .bool b
  | .null => .null
  | .unser => .unser
  | .arr xs => semEqReflList xs
  | .obj fs => semEqReflEntries fs

/-- Reflexivity of `SemEq` on arrays. -/
def semEqReflList : (xs : List J) → SemEq (.arr xs) (.arr xs)
  | [] => .arrNil
  | x :: xs => .arrCons (semEqRefl x) (semEqReflList xs)

/-- Reflexivity of `SemEq` on object entry lists. -/
def semEqReflEntries : (fs : List (String × J)) → SemEq (.obj fs) (.obj fs)
  | [] => .objNil
  | (_, v) :: fs => .objCons (semEqRefl v) (semEqReflEntries fs)
end

/-- `sortByKey` permutes its input. -/
lemma sortByKey_perm (l : List (String × J)) : List.Perm (sortByKey l) l :=
  List.mergeSort_perm l _

/-- `sortByKey` sorts by key. -/
lemma sortByKey_sorted (l : List (String × J)) :
    (sortByKey l).Pairwise (fun p q => p.1 ≤ q.1) := by
  have h : (sortByKey l).Pairwise
      (fun p q : String × J => decide (p.1 ≤ q.1) = true) := by
    apply List.sorted_mergeSort
    · intro a b c h1 h2
      simp only [decide_eq_true_eq] at *
      exact le_trans h1 h2
    · intro a b
      simpa using le_total a.1 b.1
  exact h.imp (fun h => by simpa using h)

/-- A key-sorted entry list with distinct keys is strictly sorted by key. -/
lemma pairwise_keyLt {l : List (String × J)}
    (hs : l.Pairwise (fun p q => p.1 ≤ q.1)) (hnd : (l.map Prod.fst).Nodup) :
    l.Pairwise (fun p q => p.1 < q.1) := by
  have hne : l.Pairwise (fun p q => p.1 ≠ q.1) := List.pairwise_map.mp hnd
  exact (hs.and hne).imp (fun h => lt_of_le_of_ne h.1 h.2)

/-- Two entry lists with the same distinct-keyed entries sort identically:
the uniqueness of the ordering `json.dumps(..., sort_keys=True)` imposes. -/
lemma sortByKey_eq_of_perm {l1 l2 : List (String × J)} (hp : List.Perm l1 l2)
    (hnd : (l1.map Prod.fst).Nodup) : sortByKey l1 = sortByKey l2 := by
  have hps : List.Perm (sortByKey l1) (sortByKey l2) :=
    ((sortByKey_perm l1).trans hp).trans (sortByKey_perm l2).symm
  have hnd1 : ((sortByKey l1).map Prod.fst).Nodup :=
    ((sortByKey_perm l1).map Prod.fst).nodup_iff.mpr hnd
  have hnd2 : ((sortByKey l2).map Prod.fst).Nodup :=
    (hps.map Prod.fst).nodup_iff.mp hnd1
  have hlt1 := pairwise_keyLt (sortByKey_sorted l1) hnd1
  have hlt2 := pairwise_keyLt (sortByKey_sorted l2) hnd2
  haveI : IsAntisymm (String × J) (fun p q => p.1 < q.1) :=
    ⟨fun _ _ h1 h2 => absurd (h1.trans h2) (lt_irrefl _)⟩
  exact List.eq_of_perm_of_sorted hps hlt1 hlt2

/-- `canonList` is `canonicalize` mapped over the list. -/
lemma canonList_eq_map (xs : List J) : canonList xs = xs.map canonicalize := by
  induction xs with
  | nil => rfl
  | cons x xs ih => simp [canonList, ih]

/-- `canonEntries` is `canonicalize` mapped over the entry values. -/
lemma canonEntries_eq_map (fs : List (String × J)) :
    canonEntries fs = fs.map (fun p => (p.1, canonicalize p.2)) := by
  induction fs with
  | nil => rfl
  | cons f fs ih => simp [canonEntries, ih]

/-- `canonEntries` keeps the keys. -/
lemma canonEntries_keys (fs : List (String × J)) :
    (canonEntries fs).map Prod.fst = fs.map Prod.fst := by
  rw [canonEntries_eq_map]
  simp

/-- Well-formedness of an object, split into its two parts. -/
lemma jwf_obj_parts {fs : List (String × J)} :
    jwf (J.obj fs) = true ↔ (fs.map Prod.fst).Nodup ∧ jwfEntries fs = true := by
  simp [jwf]

/-- Entry-list well-formedness is value well-formedness of every member. -/
lemma jwfEntries_iff_forall {fs : List (String × J)} :
    jwfEntries fs = true ↔ ∀ p ∈ fs, jwf p.2 = true := by
  induction fs with
  | nil => simp [jwfEntries]
  | cons f fs ih => simp [jwfEntries, ih]

/-- Well-formedness of an object is invariant under entry reordering. -/
lemma jwf_obj_perm {fs gs : List (String × J)} (hp : List.Perm fs gs)
    (h : jwf (J.obj fs) = true) : jwf (J.obj gs) = true := by
  rw [jwf_obj_parts] at h ⊢
  obtain ⟨hnd, hent⟩ := h
  refine ⟨(hp.map Prod.fst).nodup_iff.mp hnd, ?_⟩
  rw [jwfEntries_iff_forall] at hent ⊢
  intro p hpg
  exact hent p (hp.mem_iff.mpr hpg)

/-- Inversion of well-formedness at an array cons. -/
lemma jwf_arr_cons {x : J} {xs : List J} (h : jwf (J.arr (x :: xs)) = true) :
    jwf x = true ∧ jwf (J.arr xs) = true := by
  simpa [jwf, jwfList, Bool.and_eq_true] using h

/-- Inversion of well-formedness at an object cons. -/
lemma jwf_obj_cons {k : String} {v : J} {fs : List (String × J)}
    (h : jwf (J.obj ((k, v) :: fs)) = true) :
    jwf v = true ∧ jwf (J.obj fs) = true := by
  rw [jwf_obj_parts] at h
  obtain ⟨hnd, hent⟩ := h
  simp only [jwfEntries, Bool.and_eq_true] at hent
  rw [jwf_obj_parts]
  exact ⟨hent.1, (by simpa using hnd.of_cons), hent.2⟩

/-- Semantically equal well-formed values have the same canonical form: the
key ordering of `json.dumps(..., sort_keys=True)` erases insertion order at
every depth. -/
theorem canonicalize_eq_of_semEq : ∀ {v w : J}, SemEq v w →
    jwf v = true → jwf w = true → canonicalize v = canonicalize w := by
  intro v w h
  induction h with
  | str s => intro _ _; rfl
  | num n => intro _ _; rfl
  | bool b => intro _ _; rfl
  | null => intro _ _; rfl
  | unser => intro _ _; rfl
  | arrNil => intro _ _; rfl
  | arrCons hxy hxs ih1 ih2 =>
    intro hv hw
    obtain ⟨hx, hxs'⟩ := jwf_arr_cons hv
    obtain ⟨hy, hys'⟩ := jwf_arr_cons hw
    have e1 := ih1 hx hy
    have e2 := ih2 hxs' hys'
    simp only [canonicalize, canonList, J.arr.injEq, List.cons.injEq] at e2 ⊢
    exact ⟨e1, e2⟩
  | objNil => intro _ _; rfl
  | objCons hvw hfg ih1 ih2 =>
    rename_i k vv ww fs gs
    intro hv hw
    obtain ⟨hv2, hfs'⟩ := jwf_obj_cons hv
    obtain ⟨hw2, hgs'⟩ := jwf_obj_cons hw
    have e1 := ih1 hv2 hw2
    have e2 := ih2 hfs' hgs'
    simp only [canonicalize, J.obj.injEq] at e2 ⊢
    have hperm : List.Perm (canonEntries fs) (canonEntries gs) := by
      have h1 := (sortByKey_perm (canonEntries fs)).symm
      rw [e2] at h1
      exact h1.trans (sortByKey_perm (canonEntries gs))
    simp only [canonEntries, e1]
    apply sortByKey_eq_of_perm (List.Perm.cons _ hperm)
    have hnd := (jwf_obj_parts.mp hv).1
    simpa [canonEntries_keys] using hnd
  | objPerm hpm hgh ih =>
    intro hfs hhs
    have hgs := jwf_obj_perm hpm hfs
    have e := ih hgs hhs
    rw [← e]
    simp only [canonicalize, J.obj.injEq]
    apply sortByKey_eq_of_perm
    · rw [canonEntries_eq_map, canonEntries_eq_map]
      exact hpm.map _
    · rw [canonEntries_keys]
      exact (jwf_obj_parts.mp hfs).1

/-- Semantically equal well-formed values produce identical canonical bytes
(`json.dumps(..., sort_keys=True)` output, line 76). -/
theorem dumps_eq_of_semEq {v w : J} (h : SemEq v w)
    (hv : jwf v = true) (hw : jwf w = true) : dumps v = dumps w := by
  unfold dumps
  rw [canonicalize_eq_of_semEq h hv hw]

/-- `ParasiteStatus` (lines 14-17). -/
inductive ParasiteStatus where
  | active
  | archived
  | updated
deriving DecidableEq

/-- `ParasiteRecord` (lines 19-29). -/
structure ParasiteRecord where
  parasite_name : String
  classification : String
  location : String
  metadata : J
  researcher : String
  institution : String
  status : ParasiteStatus := .active
  version : Int := 1
  previous_version : Option Int := none

/-- `_validate_record` (lines 162-170): raises `ValueError` (the returned
message) when a required field is empty (Python truthiness of `str`) or when
the metadata value is not a `dict`; returns silently (`none`) otherwise. -/
def validate_record (record : ParasiteRecord) : Option String :=
  if record.parasite_name = "" ∨ record.classification = "" ∨ record.location = "" then
    some "Missing required fields in parasite record"
  else if record.metadata.isObj then none
  else some "Metadata must be a dictionary"

/-- `_upload_to_ipfs` (lines 180-184): the mock upload tags the path with an
MD5 digest.  `md5Fn` stands for `hashlib.md5(...).hexdigest()`; no claim
depends on the digest's value, only on its being a function of the path. -/
def upload_to_ipfs (md5Fn : String → String) (file_path : String) : String :=
  "ipfs_hash_" ++ md5Fn file_path

/-- `_process_additional_files` (lines 172-178): `ThreadPoolExecutor.map`
returns results in input order, so the concurrent upload equals the ordered
map of `_upload_to_ipfs` over the file list. -/
def process_additional_files (md5Fn : String → String) (files : List String) : List String :=
  files.map (upload_to_ipfs md5Fn)

/-- The metadata envelope dict built at lines 61-71, field for field. -/
structure Metadata where
  parasite_name : String
  classification : String
  location : String
  timestamp : String
  researcher : String
  institution : String
  version : Int
  additional_data : J
  ipfs_files : List String

/-- The envelope as the JSON value handed to `json.dumps` at line 76, with
the dict insertion order of lines 61-71. -/
def metadataToJ (m : Metadata) : J :=
  .obj [("parasite_name", .str m.parasite_name),
        ("classification", .str m.classification),
        ("location", .str m.location),
        ("timestamp", .str m.timestamp),
        ("researcher", .str m.researcher),
        ("institution", .str m.institution),
        ("version", .num m.version),
        ("additional_data", m.additional_data),
        ("ipfs_files", .arr (m.ipfs_files.map J.str))]

/-- Lines 61-71: the envelope, `timestamp` being the
`datetime.utcnow().isoformat()` reading taken while the body runs. -/
def build_metadata (record : ParasiteRecord) (ipfs_hashes : List String)
    (now : String) : Metadata :=
  { parasite_name := record.parasite_name,
    classification := record.classification,
    location := record.location,
    timestamp := now,
    researcher := record.researcher,
    institution := record.institution,
    version := record.version,
    additional_data := record.metadata,
    ipfs_files := ipfs_hashes }

/-- The return value of `prepare_parasite_data` (lines 79-82). -/
structure PreparedData where
  metadata : Metadata
  metadata_hash : String

/-- The exceptions `prepare_parasite_data` can raise: the `ValueError` of
`_validate_record`, or the `TypeError` of `json.dumps` on a non-serializable
metadata value. -/
inductive PrepError where
  | invalid (msg : String)
  | typeError (msg : String)

/-- One call of `prepare_parasite_data`, instrumented: the outcome, how often
`_validate_record` ran, which IPFS uploads were performed, which envelopes
were built, and how often the function body was executed. -/
structure PrepRun where
  result : Except PrepError PreparedData
  validator_evals : Nat
  uploads : List String
  envelopes : List Metadata
  body_executions : Nat

/-- The core loop of the `retry` library (`__retry_internal`): call `f`; when
it raises, wait `delay` and call again, up to `tries` attempts in total, the
last failure being re-raised.  Returns the outcome and the attempts made.
`f` is indexed by the attempt number so that a later attempt can observe a
different world (e.g. a later clock).  `tries = 0` never occurs in the
source (`tries=3`) and is modelled as a single attempt. -/
def retry_internal (f : Nat → Except e a) : Nat → Nat → Except e a × Nat
  | 0, k => (f k, k + 1)
  | 1, k => (f k, k + 1)
  | n + 2, k =>
    match f k with
    | .ok v => (.ok v, k + 1)
    | .error _ => retry_internal f (n + 1) (k + 1)

/-- The body of `prepare_parasite_data` (lines 50-86), as one execution of
its coroutine: validate (line 53), upload the additional files (lines 56-59;
`additional_files` defaults to `None`, and `None` and `[]` both skip the
upload, extensionally the upload of no files), build the envelope with the
current clock reading (lines 61-71), and derive the metadata hash
(lines 74-77), `hashFn` standing for `hashlib.sha256(...).hexdigest()`.
The `try/except` at lines 84-86 logs and re-raises, leaving the outcome
unchanged. -/
def prepare_body (record : ParasiteRecord) (additional_files : List String)
    (md5Fn hashFn : String → String) (now : String) : PrepRun :=
  match validate_record record with
  | some msg =>
    { result := .error (.invalid msg), validator_evals := 1, uploads := [],
      envelopes := [], body_executions := 1 }
  | none =>
    let ipfs_hashes := process_additional_files md5Fn additional_files
    let metadata := build_metadata record ipfs_hashes now
    match dumps (metadataToJ metadata) with
    | .error msg =>
      { result := .error (.typeError msg), validator_evals := 1,
        uploads := ipfs_hashes, envelopes := [metadata], body_executions := 1 }
    | .ok canonical_bytes =>
      { result := .ok { metadata := metadata, metadata_hash := hashFn canonical_bytes },
        validator_evals := 1, uploads := ipfs_hashes, envelopes := [metadata],
        body_executions := 1 }

/-- `prepare_parasite_data` (lines 44-86).  The decorator `@retry(tries=3,
delay=1)` wraps an `async def`: the decorated callable passes
`partial(prepare_parasite_data, ...)` through the retry loop, but calling an
`async def` only constructs its coroutine — the body runs later, when the
coroutine is awaited, outside the decorator's `try/except`.  Construction
raises nothing (error type `Empty` here), so the loop returns on its first
iteration and the `tries=3` budget is never consumed: one call executes the
body exactly once, under the single clock reading `clock 0`. -/
def prepare_parasite_data (record : ParasiteRecord) (additional_files : List String)
    (md5Fn hashFn : String → String) (clock : Nat → String) : PrepRun :=
  let construction : Except Empty (Unit → PrepRun) × Nat :=
    retry_internal
      (fun attempt =>
        .ok (fun _ => prepare_body record additional_files md5Fn hashFn (clock attempt)))
      3 0
  match construction.1 with
  | .ok coroutine => coroutine ()
  | .error e => e.elim

/-- A Clarity contract-call argument: the Python list at lines 99-108 mixes
the integer identifier with string arguments. -/
inductive ClarityArg where
  | intArg (n : Int)
  | strArg (s : String)
deriving DecidableEq

/-- The `contract_call` dict (lines 97-105). -/
structure ContractCall where
  contract_address : String
  contract_name : String
  function_name : String
  function_args : List ClarityArg
deriving DecidableEq

/-- Python truthiness of `update_existing: Optional[int]`: `None` and `0`
are falsy, every other integer is truthy (tested at lines 95 and 107). -/
def truthy : Option Int → Bool
  | none => false
  | some n => n != 0

/-- The four argument entries shared by both operations (lines 100-105). -/
def baseArgs (prepared_data : PreparedData) : List ClarityArg :=
  [.strArg prepared_data.metadata.parasite_name,
   .strArg prepared_data.metadata.classification,
   .strArg prepared_data.metadata.location,
   .strArg prepared_data.metadata_hash]

/-- `submit_to_blockchain` (lines 88-117): the function name is chosen by the
truthiness of `update_existing` (line 95), the `contract_call` dict is built
(lines 97-105), the identifier is prepended under the same truthiness test
(lines 107-108), and the success string of line 111 is returned without any
ledger interaction: the comment at line 110 leaves the actual Stacks API call
unimplemented, so nothing can fail and nothing retries. -/
def submit_to_blockchain (prepared_data : PreparedData) (update_existing : Option Int) :
    ContractCall × String :=
  let function_name :=
    if truthy update_existing then "update-parasite-record" else "add-parasite-record"
  let function_args :=
    if truthy update_existing then
      ClarityArg.intArg (update_existing.getD 0) :: baseArgs prepared_data
    else baseArgs prepared_data
  ({ contract_address := "ST1PQHQKV0RJXZFY1DGX8MNSNYVE3VGZJSRTPGZGM",
     contract_name := "parasite-registry-v2",
     function_name := function_name,
     function_args := function_args },
   "Transaction submitted with metadata hash: " ++ prepared_data.metadata_hash)

/-- A record returned by the ledger fetch, carrying the
`previous_version` link read at line 152.  Modelled from the spec: the
record-fetch interface `get(identifier) -> record fields with optional
previousVersion` of section 6 — `_fetch_record` is called at line 150 but
never defined in the class, so the resolver below takes the fetch
collaborator as a parameter. -/
structure FetchedRecord where
  record_id : Int := 0
  parasite_name : String := ""
  previous_version : Option Int := none
deriving DecidableEq

/-- The `while current_id:` loop of `get_record_history` (lines 146-152):
Python truthiness ends the loop on `None` and on `0`; each pass fetches a
record, appends it, and follows `previous_version`.  `fuel` bounds the
unrolling: `none` means the loop has not finished within `fuel` passes (the
source loop has no other exit, so exhausting every `fuel` is
non-termination). -/
def get_history_loop (fetch : Int → FetchedRecord) :
    Nat → Option Int → List FetchedRecord → Option (List FetchedRecord)
  | _, none, history => some history
  | fuel, some current_id, history =>
    if current_id = 0 then some history
    else
      match fuel with
      | 0 => none
      | fuel' + 1 =>
        let record := fetch current_id
        get_history_loop fetch fuel' record.previous_version (history ++ [record])

/-- `get_record_history` (lines 139-160); its `try/except` logs and
re-raises, leaving the outcome unchanged.  Modelled from the spec:
`_fetch_record` (line 150) is absent from the source, so the fetch interface
of section 6 is the `fetch` parameter. -/
def get_record_history (fetch : Int → FetchedRecord) (record_id : Int) (fuel : Nat) :
    Option (List FetchedRecord) :=
  get_history_loop fetch fuel (some record_id) []

/-- The resolver's loop exits within some finite number of passes. -/
def HistoryTerminates (fetch : Int → FetchedRecord) (record_id : Int) : Prop :=
  ∃ fuel, (get_record_history fetch record_id fuel).isSome

/-- A finite lineage: successive identifiers linked by `previous_version`,
every identifier truthy (nonzero), the last record carrying no link. -/
def lineage_chain (fetch : Int → FetchedRecord) : List Int → Bool
  | [] => true
  | [i] => decide (i ≠ 0) && decide ((fetch i).previous_version = none)
  | i :: j :: rest =>
    decide (i ≠ 0) && decide ((fetch i).previous_version = some j) &&
      lineage_chain fetch (j :: rest)

/-- One row of `analyze_geographic_distribution`'s DataFrame: the columns its
`groupby`/`agg` (lines 127-132) consult.  Modelled from the spec:
`_fetch_all_records` (line 122) is absent from the source, so the
already-fetched record set is the argument. -/
structure AnalysisRow where
  record_id : Int
  location : String
  classification : String
  date_recorded : String
deriving DecidableEq

/-- One row of the aggregation result (lines 127-132). -/
structure LocationStats where
  location : String
  record_count : Nat
  classifications : List String
  date_recorded : String
deriving DecidableEq

/-- `df.groupby('location').agg(...)` (lines 127-131): group keys sorted
ascending (pandas default `sort=True`); per group, the count of the (always
present) `record_id` column, `list(set(classification))` — a duplicate-free
list whose order Python's `set` leaves unspecified, modelled as
first-occurrence order — and the maximum `date_recorded` (lexicographic
`max` on strings). -/
def group_by_location (records : List AnalysisRow) : List LocationStats :=
  (((records.map (fun r => r.location)).dedup).mergeSort (fun a b => decide (a ≤ b))).map
    (fun loc =>
      let group := records.filter (fun r => decide (r.location = loc))
      { location := loc,
        record_count := group.length,
        classifications := (group.map (fun r => r.classification)).dedup,
        date_recorded := (group.map (fun r => r.date_recorded)).foldl max "" })

/-- `analyze_geographic_distribution` (lines 119-137); its `try/except` logs
and re-raises.  `pd.DataFrame([])` has no columns at all, so on an empty
record set `df.groupby('location')` raises `KeyError` (line 128); on a
non-empty record set the rows carry the columns and the aggregation
succeeds. -/
def analyze_geographic_distribution (records : List AnalysisRow) :
    Except String (List LocationStats) :=
  if records.isEmpty then .error "KeyError: location"
  else .ok (group_by_location records)

/-- A well-formed record whose `version` is 0. -/
def recVersionZero : ParasiteRecord :=
  { parasite_name := "Plasmodium falciparum", classification := "Apicomplexan",
    location := "Sub-Saharan Africa", metadata := .obj [], researcher := "DR_SMITH",
    institution := "WHO_AFRICA", status := .active, version := 0, previous_version := none }

/-- A well-formed record whose `version` is 5 with no previous version. -/
def recVersionFive : ParasiteRecord :=
  { parasite_name := "Plasmodium falciparum", classification := "Apicomplexan",
    location := "Sub-Saharan Africa", metadata := .obj [], researcher := "DR_SMITH",
    institution := "WHO_AFRICA", status := .active, version := 5, previous_version := none }

/-- A record with an empty `parasite_name`, which validation rejects. -/
def recNoName : ParasiteRecord :=
  { parasite_name := "", classification := "Apicomplexan", location := "Sub-Saharan Africa",
    metadata := .obj [], researcher := "DR_SMITH", institution := "WHO_AFRICA" }

/-- The sample record of the source's `main()` (lines 188-203), abridged. -/
def exampleRecord : ParasiteRecord :=
  { parasite_name := "Plasmodium falciparum", classification := "Apicomplexan",
    location := "Sub-Saharan Africa",
    metadata := .obj [("resistance_profile", .str "chloroquine-resistant"),
                      ("prevalence", .str "high")],
    researcher := "DR_SMITH", institution := "WHO_AFRICA" }

/-- A concrete prepared payload for exercising `submit_to_blockchain`. -/
def examplePrepared : PreparedData :=
  { metadata :=
    { parasite_name := "Plasmodium falciparum", classification := "Apicomplexan",
      location := "Sub-Saharan Africa", timestamp := "2024-01-01T00:00:00",
      researcher := "DR_SMITH", institution := "WHO_AFRICA", version := 1,
      additional_data := .obj [], ipfs_files := [] },
    metadata_hash := "h123" }

/-- A fetch function under which every record links back to identifier 1:
the lineage from 1 (or from any identifier) is cyclic. -/
def cyclicFetch : Int → FetchedRecord :=
  fun i => { record_id := i, parasite_name := "cyc", previous_version := some 1 }

/-- A fetch function with the depth-2 lineage 5 -> 0: record 5 links to
record 0, record 0 has no link. -/
def zeroLinkFetch : Int → FetchedRecord :=
  fun i =>
    if i = 5 then { record_id := 5, parasite_name := "newest", previous_version := some 0 }
    else { record_id := 0, parasite_name := "oldest", previous_version := none }

/-- A fetch function with the acyclic depth-5 lineage 5 -> 4 -> 3 -> 2 -> 1. -/
def depthFiveFetch : Int → FetchedRecord :=
  fun i =>
    { record_id := i, parasite_name := "p",
      previous_version := if i ≤ 1 then none else some (i - 1) }

/-- A nested metadata value. -/
def metaA : J :=
  .obj [("prevalence", .str "high"),
        ("profile", .obj [("drug", .str "chloroquine"), ("status", .str "resistant")])]

/-- The same mapping as `metaA` with both levels in another insertion order. -/
def metaB : J :=
  .obj [("profile", .obj [("status", .str "resistant"), ("drug", .str "chloroquine")]),
        ("prevalence", .str "high")]

/-- A small non-empty fetched record set for the aggregator. -/
def exampleRows : List AnalysisRow :=
  [{ record_id := 1, location := "Kenya", classification := "Nematode",
     date_recorded := "2023-01-02" },
   { record_id := 2, location := "Kenya", classification := "Nematode",
     date_recorded := "2023-05-01" },
   { record_id := 3, location := "Benin", classification := "Trematode",
     date_recorded := "2022-11-11" }]

/-- Running the history loop along a finite truthy lineage appends exactly
the fetched records of the lineage, in walk order. -/
lemma get_history_loop_lineage (fetch : Int → FetchedRecord) :
    ∀ (ids : List Int) (i : Int), lineage_chain fetch (i :: ids) = true →
    ∀ (acc : List FetchedRecord) (fuel : Nat), ids.length + 1 ≤ fuel →
    get_history_loop fetch fuel (some i) acc = some (acc ++ (i :: ids).map fetch) := by
  intro ids
  induction ids with
  | nil =>
    intro i h acc fuel hf
    simp only [lineage_chain, Bool.and_eq_true, decide_eq_true_eq] at h
    obtain ⟨hi, hprev⟩ := h
    obtain ⟨fuel', rfl⟩ : ∃ fuel', fuel = fuel' + 1 := ⟨fuel - 1, by omega⟩
    simp [get_history_loop, hi, hprev]
  | cons j rest ih =>
    intro i h acc fuel hf
    simp only [lineage_chain, Bool.and_eq_true, decide_eq_true_eq] at h
    obtain ⟨⟨hi, hprev⟩, hrest⟩ := h
    obtain ⟨fuel', rfl⟩ : ∃ fuel', fuel = fuel' + 1 := ⟨fuel - 1, by omega⟩
    simp only [get_history_loop, hi, if_neg hi, hprev]
    rw [ih j hrest (acc ++ [fetch i]) fuel' (by simp at hf; omega)]
    simp

/-- Along an infinite truthy walk the history loop never exits: every amount
of fuel is exhausted. -/
lemma get_history_loop_diverges (fetch : Int → FetchedRecord) (f : Nat → Int)
    (hf : ∀ k, f k ≠ 0 ∧ (fetch (f k)).previous_version = some (f (k + 1))) :
    ∀ (fuel k : Nat) (acc : List FetchedRecord),
      get_history_loop fetch fuel (some (f k)) acc = none := by
  intro fuel
  induction fuel with
  | zero =>
    intro k acc
    simp [get_history_loop, (hf k).1]
  | succ fuel' ih =>
    intro k acc
    simp only [get_history_loop, if_neg (hf k).1, (hf k).2]
    exact ih (k + 1) _

/-- Claim C1, counterexample: `_validate_record` accepts a record whose
version is 0, and a record whose version is 5 with no previous version —
the validator never inspects `version` or `previous_version`, contradicting
the claim that no such record passes validation. -/
theorem C1_counterexample :
    recVersionZero.version = 0 ∧ validate_record recVersionZero = none ∧
    recVersionFive.version = 5 ∧ recVersionFive.previous_version = none ∧
    validate_record recVersionFive = none := by
  decide

/-- Claim C1, amended: `_validate_record` rejects exactly the records with an
empty `name`, `classification` or `location`, or a non-dict `metadata`; it
performs no version check at all, so records with `version <= 0`, or with
`version > 1` and no `previousVersion`, pass validation. -/
theorem C1_validate_characterization (record : ParasiteRecord) :
    validate_record record = none ↔
      (¬ record.parasite_name = "" ∧ ¬ record.classification = "" ∧
       ¬ record.location = "" ∧ record.metadata.isObj = true) := by
  unfold validate_record
  split_ifs with h1 h2
  · simp only [reduceCtorEq, false_iff]
    intro hc
    rcases h1 with h | h | h
    · exact hc.1 h
    · exact hc.2.1 h
    · exact hc.2.2.1 h
  · push_neg at h1
    simp [h1.1, h1.2.1, h1.2.2, h2]
  · push_neg at h1
    simp [h2]

/-- Claim C2: within one call of `prepare_parasite_data` the envelope is
built at most once — the `retry` decorator never re-enters the body of an
`async def`, so no second attempt exists that could re-derive the
timestamp — and the whole outcome, envelope and metadata hash included,
depends on the clock only through the single reading `clock 0` taken at
envelope-build time: all envelopes of one call are identical, and two calls
agreeing on that reading produce identical envelopes and hashes. -/
theorem C2_envelope_fixed_within_call (record : ParasiteRecord)
    (additional_files : List String) (md5Fn hashFn : String → String)
    (clock clock' : Nat → String) (hclock : clock 0 = clock' 0) :
    (prepare_parasite_data record additional_files md5Fn hashFn clock).body_executions = 1 ∧
    (∀ e1 ∈ (prepare_parasite_data record additional_files md5Fn hashFn clock).envelopes,
      ∀ e2 ∈ (prepare_parasite_data record additional_files md5Fn hashFn clock).envelopes,
        e1 = e2) ∧
    prepare_parasite_data record additional_files md5Fn hashFn clock =
      prepare_parasite_data record additional_files md5Fn hashFn clock' := by
  have hun : ∀ c : Nat → String,
      prepare_parasite_data record additional_files md5Fn hashFn c =
        prepare_body record additional_files md5Fn hashFn (c 0) := fun c => rfl
  rw [hun clock, hun clock', hclock]
  have henv : ∀ now, (prepare_body record additional_files md5Fn hashFn now).body_executions = 1 ∧
      ∀ e1 ∈ (prepare_body record additional_files md5Fn hashFn now).envelopes,
        ∀ e2 ∈ (prepare_body record additional_files md5Fn hashFn now).envelopes,
          e1 = e2 := by
    intro now
    cases hv : validate_record record with
    | some msg => simp [prepare_body, hv]
    | none =>
      cases hd : dumps (metadataToJ (build_metadata record
          (process_additional_files md5Fn additional_files) now)) with
      | error msg => simp [prepare_body, hv, hd]
      | ok bytes => simp [prepare_body, hv, hd]
  exact ⟨(henv _).1, (henv _).2, rfl⟩

/-- Claim C3, counterexample: `submit_to_blockchain` returns a success
outcome unconditionally — its inputs contain no ledger client, it has no
retry loop and no failure value, so even "against an always-failing ledger"
it yields the success string rather than a SubmissionFailed carrying
attemptsMade = 3. -/
theorem C3_counterexample :
    (submit_to_blockchain examplePrepared none).2 =
      "Transaction submitted with metadata hash: h123" ∧
    (submit_to_blockchain examplePrepared none).1.function_name =
      "add-parasite-record" := by
  decide

/-- Claim C3, amended: the submission path performs no ledger call and no
retry: for every prepared payload and every target, `submit_to_blockchain`
returns the fixed success message carrying the prepared metadata hash, and
no failure outcome exists in its type. -/
theorem C3_submit_always_succeeds (prepared_data : PreparedData)
    (update_existing : Option Int) :
    (submit_to_blockchain prepared_data update_existing).2 =
      "Transaction submitted with metadata hash: " ++ prepared_data.metadata_hash := rfl

/-- Claim C4: a validation failure is local and never retried: when
`_validate_record` rejects, `prepare_parasite_data` surfaces that
`ValueError` after exactly one evaluation of the validator, in a single body
execution (the `retry` budget untouched), with no uploads performed and no
envelope built — no network interaction before or after the failure. -/
theorem C4_validation_failure_local (record : ParasiteRecord)
    (additional_files : List String) (md5Fn hashFn : String → String)
    (clock : Nat → String) (msg : String) (h : validate_record record = some msg) :
    prepare_parasite_data record additional_files md5Fn hashFn clock =
      { result := .error (.invalid msg), validator_evals := 1, uploads := [],
        envelopes := [], body_executions := 1 } := by
  show prepare_body record additional_files md5Fn hashFn (clock 0) = _
  simp [prepare_body, h]

/-- Claim C4, witness: the record with an empty name is rejected in one
validator evaluation with no uploads. -/
theorem C4_witness :
    validate_record recNoName = some "Missing required fields in parasite record" ∧
    prepare_parasite_data recNoName ["genome_data.fastq"] (fun s => s) (fun s => s)
        (fun _ => "2024-01-01T00:00:00") =
      { result := .error (.invalid "Missing required fields in parasite record"),
        validator_evals := 1, uploads := [], envelopes := [], body_executions := 1 } :=
  ⟨by decide,
   C4_validation_failure_local recNoName ["genome_data.fastq"] (fun s => s) (fun s => s)
     (fun _ => "2024-01-01T00:00:00") "Missing required fields in parasite record"
     (by decide)⟩

/-- Claim C5, counterexample: on a cyclic lineage (record 1 links back to
itself under `cyclicFetch`) `get_record_history` never exits its loop — no
amount of fuel completes it — instead of terminating with a HistoryCorrupt
failure; indeed no such failure exists in the code, whose loop keeps no
visited set. -/
theorem C5_counterexample : ¬ HistoryTerminates cyclicFetch 1 := by
  have hf : ∀ k : Nat, (1 : Int) ≠ 0 ∧ (cyclicFetch 1).previous_version = some 1 :=
    fun _ => ⟨by decide, rfl⟩
  rintro ⟨fuel, hs⟩
  have h : get_history_loop cyclicFetch fuel (some 1) [] = none :=
    get_history_loop_diverges cyclicFetch (fun _ => 1) hf fuel 0 []
  rw [get_record_history] at hs
  simp [h] at hs

/-- Claim C5, amended: the resolver has no cycle guard and no HistoryCorrupt
outcome: whenever the fetched lineage admits an infinite truthy walk — as
every cyclic lineage does — the `while current_id` loop of
`get_record_history` never terminates. -/
theorem C5_cycle_diverges (fetch : Int → FetchedRecord) (f : Nat → Int)
    (hf : ∀ k, f k ≠ 0 ∧ (fetch (f k)).previous_version = some (f (k + 1))) :
    ¬ HistoryTerminates fetch (f 0) := by
  rintro ⟨fuel, hs⟩
  have h := get_history_loop_diverges fetch f hf fuel 0 []
  rw [get_record_history] at hs
  simp [h] at hs

/-- Claim C5, witness: the walk 2 -> 1 -> 1 -> ... under `cyclicFetch` is an
infinite truthy walk, so resolution from identifier 2 diverges. -/
theorem C5_witness : ¬ HistoryTerminates cyclicFetch 2 := by
  have hf : ∀ k : Nat, (if k = 0 then (2 : Int) else 1) ≠ 0 ∧
      (cyclicFetch (if k = 0 then (2 : Int) else 1)).previous_version =
        some (if k + 1 = 0 then (2 : Int) else 1) := by
    intro k
    refine ⟨?_, ?_⟩
    · split <;> decide
    · simp [cyclicFetch]
  exact C5_cycle_diverges cyclicFetch (fun k => if k = 0 then 2 else 1) hf

/-- Claim C6, counterexample: an update target of 0 is present, yet the
dispatch is "add-parasite-record" with no identifier prepended. -/
theorem C6_counterexample :
    (submit_to_blockchain examplePrepared (some 0)).1.function_name =
      "add-parasite-record" ∧
    (submit_to_blockchain examplePrepared (some 0)).1.function_args =
      baseArgs examplePrepared := by
  decide

/-- Claim C6, amended: dispatch follows truthiness — a present and NONZERO
updateTarget yields "update-parasite-record" with the target identifier
first, followed by name, classification, location and metadata hash; an
absent OR ZERO target yields "add-parasite-record" with exactly those four
arguments. -/
theorem C6_dispatch (prepared_data : PreparedData) (update_existing : Option Int) :
    ((update_existing = none ∨ update_existing = some 0) →
      (submit_to_blockchain prepared_data update_existing).1.function_name =
          "add-parasite-record" ∧
      (submit_to_blockchain prepared_data update_existing).1.function_args =
          baseArgs prepared_data) ∧
    (∀ n : Int, update_existing = some n → n ≠ 0 →
      (submit_to_blockchain prepared_data update_existing).1.function_name =
          "update-parasite-record" ∧
      (submit_to_blockchain prepared_data update_existing).1.function_args =
          ClarityArg.intArg n :: baseArgs prepared_data) := by
  constructor
  · rintro (rfl | rfl) <;> simp [submit_to_blockchain, truthy]
  · rintro n rfl hn
    simp [submit_to_blockchain, truthy, bne_iff_ne, hn]

/-- Claim C6, witness: updateTarget 42 dispatches the update operation with
42 as the first element of the argument list. -/
theorem C6_witness :
    (submit_to_blockchain examplePrepared (some 42)).1.function_name =
      "update-parasite-record" ∧
    (submit_to_blockchain examplePrepared (some 42)).1.function_args =
      ClarityArg.intArg 42 :: baseArgs examplePrepared :=
  (C6_dispatch examplePrepared (some 42)).2 42 rfl (by decide)

/-- Claim C7: the Canonical Encoder is deterministic — two semantically
equal metadata values (same keys and values at every nesting depth, in any
insertion order, with the duplicate-free keys a Python dict guarantees)
produce identical canonical bytes under `json.dumps(..., sort_keys=True)`,
and hence an identical metadata hash for every hash function. -/
theorem C7_canonical_encoder_deterministic (v w : J) (hashFn : String → String)
    (hv : jwf v = true) (hw : jwf w = true) (h : SemEq v w) :
    dumps v = dumps w ∧ (dumps v).map hashFn = (dumps w).map hashFn := by
  have e := dumps_eq_of_semEq h hv hw
  exact ⟨e, by rw [e]⟩

/-- Claim C7, witness: a nested mapping reordered at both levels encodes to
the same canonical bytes. -/
theorem C7_witness :
    jwf metaA = true ∧ jwf metaB = true ∧ SemEq metaA metaB ∧
    dumps metaA = dumps metaB := by
  have hsem : SemEq metaA metaB :=
    SemEq.objPerm
      (List.Perm.swap ("profile", J.obj [("drug", J.str "chloroquine"),
          ("status", J.str "resistant")]) ("prevalence", J.str "high") [])
      (SemEq.objCons
        (SemEq.objPerm (List.Perm.swap ("status", J.str "resistant")
            ("drug", J.str "chloroquine") [])
          (semEqReflEntries [("status", J.str "resistant"),
            ("drug", J.str "chloroquine")]))
        (SemEq.objCons (SemEq.str "high") SemEq.objNil))
  exact ⟨by decide, by decide, hsem,
    (C7_canonical_encoder_deterministic metaA metaB id (by decide) (by decide) hsem).1⟩

/-- Claim C8, counterexample: a depth-2 lineage whose oldest record carries
identifier 0 — record 5 links to record 0, record 0 has no link — resolves
to a chain of length 1, not 2: the loop's truthiness test stops at
identifier 0 without fetching that record. -/
theorem C8_counterexample :
    (zeroLinkFetch 5).previous_version = some 0 ∧
    (zeroLinkFetch 0).previous_version = none ∧
    get_record_history zeroLinkFetch 5 10 = some [zeroLinkFetch 5] ∧
    (get_record_history zeroLinkFetch 5 10).map List.length ≠ some 2 := by
  decide

/-- Claim C8, amended: for every acyclic lineage whose identifiers are all
truthy (nonzero), `get_record_history` returns exactly the lineage's records
newest-first — the i-th element is the record fetched for the i-th
identifier of the walk, and the chain length is the lineage depth.  An
identifier equal to 0 instead ends the walk early, because the loop tests
Python truthiness rather than presence of the link. -/
theorem C8_lineage_resolves (fetch : Int → FetchedRecord) (start : Int)
    (ids : List Int) (h : lineage_chain fetch (start :: ids) = true)
    (fuel : Nat) (hfuel : ids.length + 1 ≤ fuel) :
    get_record_history fetch start fuel = some ((start :: ids).map fetch) ∧
    ((start :: ids).map fetch).length = ids.length + 1 := by
  constructor
  · have h' := get_history_loop_lineage fetch ids start h [] fuel hfuel
    simpa [get_record_history] using h'
  · simp

/-- Claim C8, witness: the depth-5 lineage 5 -> 4 -> 3 -> 2 -> 1 resolves to
a chain of length 5, newest-first. -/
theorem C8_witness :
    lineage_chain depthFiveFetch [5, 4, 3, 2, 1] = true ∧
    get_record_history depthFiveFetch 5 5 =
      some ([5, 4, 3, 2, 1].map depthFiveFetch) ∧
    (get_record_history depthFiveFetch 5 5).map List.length = some 5 := by
  have h : lineage_chain depthFiveFetch [5, 4, 3, 2, 1] = true := by decide
  refine ⟨h, (C8_lineage_resolves depthFiveFetch 5 [4, 3, 2, 1] h 5 (by decide)).1, ?_⟩
  rw [(C8_lineage_resolves depthFiveFetch 5 [4, 3, 2, 1] h 5 (by decide)).1]
  decide

/-- Claim C9, counterexample: on the empty record set the aggregation does
not return an empty mapping — `pd.DataFrame([])` has no `location` column,
so `groupby` raises `KeyError`. -/
theorem C9_counterexample :
    analyze_geographic_distribution [] = .error "KeyError: location" := rfl

/-- Claim C9, amended: the aggregator is pure and total only on NON-empty
input: a non-empty record set yields the grouped mapping, in which every
record's location appears with the group's row count; the empty record set
raises `KeyError` instead of returning an empty mapping. -/
theorem C9_aggregate_nonempty (records : List AnalysisRow) (h : records ≠ []) :
    analyze_geographic_distribution records = .ok (group_by_location records) ∧
    ∀ r ∈ records, ∃ s ∈ group_by_location records,
      s.location = r.location ∧
      s.record_count =
        (records.filter (fun x => decide (x.location = r.location))).length := by
  constructor
  · simp [analyze_geographic_distribution, h]
  · intro r hr
    have hloc : r.location ∈
        ((records.map (fun r => r.location)).dedup).mergeSort
          (fun a b => decide (a ≤ b)) := by
      rw [(List.mergeSort_perm _ _).mem_iff, List.mem_dedup]
      exact List.mem_map.mpr ⟨r, hr, rfl⟩
    exact ⟨_, List.mem_map.mpr ⟨r.location, hloc, rfl⟩, rfl, rfl⟩

/-- Claim C9, witness: a three-row record set over two locations aggregates
successfully. -/
theorem C9_witness :
    exampleRows ≠ [] ∧
    analyze_geographic_distribution exampleRows = .ok (group_by_location exampleRows) :=
  ⟨by decide, (C9_aggregate_nonempty exampleRows (by decide)).1⟩

/-- Claim C10: the add-vs-update choice tests the truthiness of the
identifier, not its presence: an update target of 0 is dispatched exactly as
an absent one — "add-parasite-record" with no identifier prepended — so the
existing record with identifier 0 can never be updated through this call. -/
theorem C10_zero_target_is_add (prepared_data : PreparedData) :
    submit_to_blockchain prepared_data (some 0) =
      submit_to_blockchain prepared_data none ∧
    (submit_to_blockchain prepared_data (some 0)).1.function_name =
      "add-parasite-record" ∧
    (submit_to_blockchain prepared_data (some 0)).1.function_args =
      baseArgs prepared_data := by
  refine ⟨rfl, rfl, rfl⟩

/-- Claim C2, witness: a concrete call, compared against a second call whose
clock agrees on the single build-time reading. -/
theorem C2_witness :
    ((fun n : Nat => toString n) 0 = (fun _ : Nat => "0") 0) ∧
    prepare_parasite_data exampleRecord [] (fun s => s) (fun s => s)
        (fun n => toString n) =
      prepare_parasite_data exampleRecord [] (fun s => s) (fun s => s)
        (fun _ => "0") :=
  ⟨by decide,
   (C2_envelope_fixed_within_call exampleRecord [] (fun s => s) (fun s => s)
     (fun n => toString n) (fun _ => "0") (by decide)).2.2⟩
